import Mathlib

/-!
Verification of the version-computation core of python-semantic-release
(codejedi365 fork).

The development shallowly embeds:
  * the `LevelBump` ordered enum (`semantic_release/enums.py`, absent from
    `src/`; modelled from the spec §3 and pinned by the in-src test suites),
  * the `Version` value type and its arithmetic (`semantic_release/version/
    version.py`, absent from `src/`; modelled from the spec §4.1 and pinned
    by `tests/unit/semantic_release/version/test_version.py`),
  * the Angular commit parser (`src/semantic_release/commit_parser/angular.py`,
    present in `src/`, embedded directly),
  * the tag translator (`src/semantic_release/version/translator.py`, present
    in `src/`) together with the tag-format check and release-history
    reconstruction (absent from `src/`; modelled from the spec §4.3),
  * the next-version algorithm (`semantic_release/version/algorithm.py`,
    absent from `src/`; modelled from the spec §4.4 and pinned by
    `tests/scenario/test_next_version.py`).
-/

namespace SemRelease

/-! ## LevelBump (`semantic_release/enums.py`)

Modelled from the spec: ordered enum
`NO_RELEASE < PRERELEASE_REVISION < PATCH < MINOR < MAJOR`, totally ordered,
supporting `max` aggregation (spec §3); the enum's source file is not under
`src/`. -/

inductive LevelBump where
  | NO_RELEASE
  | PRERELEASE_REVISION
  | PATCH
  | MINOR
  | MAJOR
deriving DecidableEq, Repr

/-- Ordinal value of a bump level, realising the spec's total order. -/
def LevelBump.val : LevelBump → Nat
  | .NO_RELEASE => 0
  | .PRERELEASE_REVISION => 1
  | .PATCH => 2
  | .MINOR => 3
  | .MAJOR => 4

/-- `max` of two bump levels (Python `max` via the enum's total order). -/
def LevelBump.lmax (a b : LevelBump) : LevelBump :=
  if a.val ≤ b.val then b else a

/-- `min` of two bump levels (Python `min` via the enum's total order). -/
def LevelBump.lmin (a b : LevelBump) : LevelBump :=
  if a.val ≤ b.val then a else b

/-! ## Version (`semantic_release/version/version.py`)

Modelled from the spec: the immutable semantic-version value type of §3/§4.1;
`version.py` is not under `src/`.  The in-src unit tests
(`tests/unit/semantic_release/version/test_version.py`) pin two points on
which they are more precise than the spec text: the prerelease token holds
the *configured* token (default `"rc"`) even for a non-prerelease version
(parsing `"1.0.0"` yields `prerelease_token == "rc"`), and a version is a
prerelease exactly when its `prerelease_revision` is set. -/

structure Version where
  major : Nat
  minor : Nat
  patch : Nat
  prereleaseToken : String
  prereleaseRevision : Option Nat
  buildMetadata : String
deriving DecidableEq, Repr

/-- A version is a prerelease exactly when a prerelease revision is present
(pinned by `test_version_prerelease` together with
`test_version_parse_succeeds`, which shows a default token on full
releases). -/
def Version.isPrerelease (v : Version) : Bool :=
  v.prereleaseRevision.isSome

/-- Modelled from the spec: `bump(level)` (§4.1).  `NO_RELEASE` returns the
version unchanged; `PRERELEASE_REVISION` increments the revision
(initialising to 1 when not currently a prerelease); `PATCH`/`MINOR`/`MAJOR`
increment the respective digit and zero all lower digits.  The in-src test
`test_version_bump_succeeds` pins that — contrary to the spec sentence
"clearing any prerelease state" — a digit bump on a prerelease *preserves*
the prerelease state (`1.2.3-rc.1` bumped by `PATCH` gives `1.2.4-rc.1`):
the token is kept and the revision restarts at 1. -/
def Version.bump (v : Version) : LevelBump → Version
  | .NO_RELEASE => v
  | .PRERELEASE_REVISION =>
      { v with prereleaseRevision := some (v.prereleaseRevision.getD 0 + 1) }
  | .PATCH =>
      { v with patch := v.patch + 1,
               prereleaseRevision := if v.isPrerelease then some 1 else none }
  | .MINOR =>
      { v with minor := v.minor + 1, patch := 0,
               prereleaseRevision := if v.isPrerelease then some 1 else none }
  | .MAJOR =>
      { v with major := v.major + 1, minor := 0, patch := 0,
               prereleaseRevision := if v.isPrerelease then some 1 else none }

/-- Modelled from the spec: `to_prerelease(token, revision=None)` (§4.1).
When the revision is given explicitly it is simply set.  When omitted, the
in-src test `test_version_to_prerelease_defaults` pins that a prerelease with
the *same* token keeps its revision unchanged (`1.1.1-rc.2` → `1.1.1-rc.2`),
while a non-prerelease starts at revision 1; on a token change the revision
resets to 1 (spec §4.1). -/
def Version.toPrerelease (v : Version) (token : Option String)
    (revision : Option Nat) : Version :=
  let t := token.getD v.prereleaseToken
  let r := match revision with
    | some r => r
    | none =>
        if v.isPrerelease ∧ t = v.prereleaseToken then v.prereleaseRevision.getD 1
        else 1
  { v with prereleaseToken := t, prereleaseRevision := some r }

/-- Modelled from the spec: `finalize_version()` strips the prerelease state,
keeping the numeric triple (§4.1); `test_version_finalize_version` pins that
the (now inert) token field is preserved. -/
def Version.finalizeVersion (v : Version) : Version :=
  { v with prereleaseRevision := none }

/-- Modelled from the spec: `add_build_metadata(text)` (§4.1). -/
def Version.addBuildMetadata (v : Version) (b : String) : Version :=
  { v with buildMetadata := b }

/-- Modelled from the spec: subtraction `a - b -> LevelBump`, the minimal
level bump transforming one version into the other (symmetric, §4.1), with
the concrete cases pinned by `test_version_difference`: differing majors give
`MAJOR`, then minors `MINOR`, then patches `PATCH`; equal triples with
differing prerelease state give `PRERELEASE_REVISION`; build metadata is
ignored. -/
def Version.sub (a b : Version) : LevelBump :=
  if a.major ≠ b.major then .MAJOR
  else if a.minor ≠ b.minor then .MINOR
  else if a.patch ≠ b.patch then .PATCH
  else if a.prereleaseRevision ≠ b.prereleaseRevision then .PRERELEASE_REVISION
  else if a.isPrerelease ∧ b.isPrerelease ∧ a.prereleaseToken ≠ b.prereleaseToken
    then .PRERELEASE_REVISION
  else .NO_RELEASE

/-! ## Parse results (`semantic_release/commit_parser/token.py` /
`src/semantic_release/commit_parser/util.py`)

`ParsedCommit` and `ParseError` are named tuples; the `commit` field (an
opaque VCS commit reference) is represented by the commit's message string,
the only part of it the embedded code reads. -/

structure ParsedCommit where
  bump : LevelBump
  ptype : String
  scope : Option String
  descriptions : List String
  breakingDescriptions : List String
  message : String
  linkedIssues : List String
  linkedMergeRequest : String
deriving DecidableEq, Repr

structure ParseErrorResult where
  message : String
  error : String
deriving DecidableEq, Repr

/-- `ParseResult = ParsedCommit | ParseError`. -/
inductive ParseResult where
  | parsed (pc : ParsedCommit)
  | failed (e : ParseErrorResult)
deriving DecidableEq, Repr

/-- The exception type raised by `ParseError.raise_error`
(`semantic_release/errors.py`). -/
structure CommitParseError where
  msg : String
deriving DecidableEq, Repr

/-- `ParseError.raise_error` (src/semantic_release/commit_parser/util.py):
raises `CommitParseError(self.error)`.  The raised exception is modelled as
the returned exception value. -/
def ParseErrorResult.raiseError (e : ParseErrorResult) : CommitParseError :=
  { msg := e.error }

/-! ## Next-version algorithm (`semantic_release/version/algorithm.py`)

Modelled from the spec: `algorithm.py` is not under `src/`; the procedure
follows spec §4.4, with the guards' conditions pinned by the in-src scenario
suite `tests/scenario/test_next_version.py`:

  * the no-op guard (spec step 2) does *not* fire when the last version is a
    prerelease and the caller does not request a prerelease (merging a
    prerelease branch to a release branch finalizes it even without new
    releasable commits — the suite's header note and e.g. the
    `1.2.0-alpha.2` → `1.2.0` rows), and it does *not* fire when the last
    version is `0.x` and `allow_zero_version` is false (the no-tags rows
    expect `1.0.0` / `1.0.0-rc.1` even for zero releasable commits);
  * the zero-version policy (spec step 4) then forces `MAJOR` when
    `allow_zero_version` is false, or caps the level at `MINOR` when
    `major_on_zero` is false, before the prerelease-continuation comparison
    (spec §4.4 edge-case note: "cap first, compare second").

Only the non-strict mode is modelled (strict mode raises
`NoVersionBumpError` at the no-op guard instead of returning). -/

/-- Bumps of the `ParsedCommit` entries; `ParseError` entries are ignored. -/
def parsedBumps (results : List ParseResult) : List LevelBump :=
  results.filterMap fun r =>
    match r with
    | .parsed pc => some pc.bump
    | .failed _ => none

/-- Step 1 of spec §4.4: `max(..., default=NO_RELEASE)` over the parsed
commits' bumps. -/
def aggLevel (results : List ParseResult) : LevelBump :=
  (parsedBumps results).foldl LevelBump.lmax .NO_RELEASE

/-- Step 8 of spec §4.4: append the build metadata, when provided, on every
return path. -/
def withBuild (bm : Option String) (v : Version) : Version :=
  match bm with
  | none => v
  | some b => v.addBuildMetadata b

/-- Step 4 of spec §4.4: the zero-version policy, applied to the aggregated
level while `last.major == 0`. -/
def zeroAdjust (last : Version) (majorOnZero allowZeroVersion : Bool)
    (level : LevelBump) : LevelBump :=
  if last.major = 0 then
    if allowZeroVersion = false then .MAJOR
    else if majorOnZero = false then level.lmin .MINOR
    else level
  else level

/-- Modelled from the spec: `next_version` (§4.4, non-strict mode), with the
guard conditions pinned by `tests/scenario/test_next_version.py` as described
above.  `last` is the most recent release's version (or the default initial
`0.0.0`), `lastFull` the most recent non-prerelease release (or the default
initial version), `results` the parsed unreleased commits. -/
def nextVersion (last lastFull : Version) (results : List ParseResult)
    (prerelease : Bool) (prereleaseToken : String)
    (majorOnZero allowZeroVersion : Bool) (buildMetadata : Option String) :
    Version :=
  let level0 := aggLevel results
  if level0 = .NO_RELEASE ∧ (last.isPrerelease = false ∨ prerelease = true)
      ∧ (last.major ≠ 0 ∨ allowZeroVersion = true) then
    withBuild buildMetadata last
  else if level0 = .PRERELEASE_REVISION ∧ prerelease = false then
    withBuild buildMetadata last
  else
    let level := zeroAdjust last majorOnZero allowZeroVersion level0
    if last.isPrerelease then
      let diff := last.sub lastFull
      if level.val ≤ diff.val then
        if prerelease then
          withBuild buildMetadata
            (last.toPrerelease (some prereleaseToken)
              (some (if last.prereleaseToken ≠ prereleaseToken then 1
                     else last.prereleaseRevision.getD 0 + 1)))
        else withBuild buildMetadata last.finalizeVersion
      else
        let next := lastFull.bump level
        withBuild buildMetadata
          (if prerelease then next.toPrerelease (some prereleaseToken) none
           else next)
    else
      let next := last.bump level
      withBuild buildMetadata
        (if prerelease then next.toPrerelease (some prereleaseToken) none
         else next)

/-! ## String helpers for the Angular parser embedding

The parser (`src/src/semantic_release/commit_parser/angular.py`) works with
Python regular expressions; the embedding implements their deterministic
behaviour on `List Char`, including the greedy/backtracking choices of the
concrete patterns involved. -/

/-- Python `str.isspace` characters relevant to `\s` and `str.strip()` on
ASCII input. -/
def isPyWs (c : Char) : Bool :=
  c = ' ' ∨ c = '\t' ∨ c = '\n' ∨ c = '\r' ∨ c = '\x0b' ∨ c = '\x0c'

/-- Drop a literal prefix, case-sensitively; `none` when it is not a
prefix. -/
def dropLit : List Char → List Char → Option (List Char)
  | [], cs => some cs
  | _ :: _, [] => none
  | l :: ls, c :: cs => if c = l then dropLit ls cs else none

/-- Drop a literal prefix, case-insensitively (`re.IGNORECASE`). -/
def dropLitCI : List Char → List Char → Option (List Char)
  | [], cs => some cs
  | _ :: _, [] => none
  | l :: ls, c :: cs => if c.toLower = l.toLower then dropLitCI ls cs else none

/-- Python `text.split("\n\n")`: split on each non-overlapping occurrence of
the separator, scanning left to right. -/
def splitNN : List Char → List (List Char)
  | [] => [[]]
  | '\n' :: '\n' :: rest => [] :: splitNN rest
  | c :: rest =>
      match splitNN rest with
      | [] => [[c]]
      | p :: ps => (c :: p) :: ps

/-- Python `str.split(",")` on a character list. -/
def splitComma : List Char → List (List Char)
  | [] => [[]]
  | ',' :: rest => [] :: splitComma rest
  | c :: rest =>
      match splitComma rest with
      | [] => [[c]]
      | p :: ps => (c :: p) :: ps

/-- Python `str.strip()`. -/
def pyStrip (cs : List Char) : List Char :=
  ((cs.dropWhile isPyWs).reverse.dropWhile isPyWs).reverse

/-- `parse_paragraphs` (src/semantic_release/commit_parser/util.py): remove
carriage returns, split the text on blank lines, collapse single line breaks
into spaces, strip, and drop empty paragraphs. -/
def parseParagraphs (text : String) : List String :=
  (((splitNN (text.toList.filter (· ≠ '\r'))).map
      (fun p => pyStrip (p.map (fun c => if c = '\n' then ' ' else c)))).filter
    (· ≠ [])).map List.asString

/-! ## Paragraph classifiers of the Angular parser -/

/-- `breaking_re.match(text)` for the pattern
`BREAKING[ -]CHANGE:\s?(.*)` (src/semantic_release/commit_parser/util.py):
anchored at the paragraph start; after the literal header an optional single
whitespace character is consumed greedily, and the capture group is the rest
of the line.  Returns the capture group (`match.group(1)`). -/
def breakingMatch (p : List Char) : Option (List Char) :=
  (dropLit "BREAKING CHANGE:".toList p <|> dropLit "BREAKING-CHANGE:".toList p).map
    fun rest =>
      match rest with
      | c :: tl =>
          if isPyWs c then tl.takeWhile (· ≠ '\n')
          else (c :: tl).takeWhile (· ≠ '\n')
      | [] => []

/-- The issue-predicate tail of `issue_selector`: after the keyword, `:` then
`[\t ]+(?P<issue_predicate>.+)[\t ]*$`.  The run of tabs/spaces is taken
greedily; when nothing follows it, the regex backtracks and the final
whitespace character itself becomes the (one-character) predicate. -/
def colonTail (cs : List Char) : Option (List Char) :=
  match cs with
  | ':' :: r =>
      let n := (r.takeWhile (fun c => c = ' ' ∨ c = '\t')).length
      if n = 0 then none
      else
        match r.drop n with
        | c :: tl => some (c :: tl)
        | [] => if 2 ≤ n then some (r.drop (n - 1)) else none
  | _ => none

/-- One keyword alternative of `issue_selector`: the stem, then the optional
suffixes tried greedily in pattern order, then the `:`-tail. -/
def tryStem (stem : String) (suffixes : List String) (cs : List Char) :
    Option (List Char) :=
  match dropLitCI stem.toList cs with
  | none => none
  | some r =>
      (suffixes.findSome? fun sfx =>
        match dropLitCI sfx.toList r with
        | some r2 => colonTail r2
        | none => none) <|> colonTail r

/-- `issue_selector.search(text)` for the pattern
`^(?:close[sd]?|fix(?:es|ed)?|resolve[sd]?):[\t ]+(?P<issue_predicate>.+)[\t ]*$`
with `re.MULTILINE | re.IGNORECASE` (angular.py).  Paragraphs contain no
newline once collapsed, so `^` anchors the match at the paragraph start.
Returns the `issue_predicate` group. -/
def issueSearch (p : List Char) : Option (List Char) :=
  tryStem "close" ["s", "d"] p <|> tryStem "fix" ["es", "ed"] p
    <|> tryStem "resolve" ["s", "d"] p

/-- One step of `regexp(r" *[,;/ ] *").sub(",", ...)` (angular.py): the
leftmost-match attempt at the current position.  The leading ` *` is taken
greedily; when no `[,;/]` separator follows the space run, the run's last
space itself serves as the `[ ]` separator (one backtracking step).  Returns
the remainder after the matched span, or `none` when there is no match at
this position. -/
def trySepMatch : List Char → Option (List Char)
  | [] => none
  | c :: tl =>
      if c = ',' ∨ c = ';' ∨ c = '/' then some (tl.dropWhile (· = ' '))
      else if c = ' ' then some ((trySepMatch tl).getD tl)
      else none

/-- `regexp(r" *[,;/ ] *").sub(",", predicate)` (angular.py), driven by a
fuel counter: each match or skipped character consumes at least one input
character, so `cs.length` steps always suffice (`trySepMatch_shrinks`
below). -/
def replaceSepsAux : Nat → List Char → List Char
  | 0, cs => cs
  | fuel + 1, cs =>
      match trySepMatch cs with
      | some rest => ',' :: replaceSepsAux fuel rest
      | none =>
          match cs with
          | [] => []
          | c :: tl => c :: replaceSepsAux fuel tl

/-- Replace every non-overlapping ` *[,;/ ] *` occurrence with `,`, scanning
left to right. -/
def replaceSeps (cs : List Char) : List Char :=
  replaceSepsAux cs.length cs

/-- The linked-issue references extracted from an `issue_predicate`:
separators are normalised to commas, then the predicate is split on commas
and empty entries dropped (`filter(None, predicate.split(","))`). -/
def issueRefs (pred : List Char) : List String :=
  ((splitComma (replaceSeps pred)).filter (· ≠ [])).map List.asString

/-! ## Merge-request selector -/

/-- The part of `mr_selector` after the leading `[\t ]`:
`\((?:pull request )?(?P<mr_number>[#!]\d+)\)[\t ]*$` (angular.py).  The
optional `pull request ` literal is tried greedily with backtracking.
Returns the `mr_number` group. -/
def mrTail (cs : List Char) : Option (List Char) :=
  match cs with
  | '(' :: r =>
      let tryCore := fun (s : List Char) =>
        match s with
        | c :: tl =>
            if c = '#' ∨ c = '!' then
              let ds := tl.takeWhile Char.isDigit
              if ds ≠ [] then
                match tl.drop ds.length with
                | ')' :: after =>
                    if after.all (fun a => a = ' ' ∨ a = '\t') then
                      some (c :: ds)
                    else none
                | _ => none
              else none
            else none
        | [] => none
      (match dropLit "pull request ".toList r with
       | some r2 => tryCore r2
       | none => none) <|> tryCore r
  | _ => none

/-- `mr_selector.search(parsed_subject)` (angular.py): the leftmost position
of a tab/space whose tail matches the merge-request pattern anchored at the
subject's end. -/
def mrScan : List Char → Option (List Char)
  | [] => none
  | c :: rest =>
      (if c = ' ' ∨ c = '\t' then mrTail rest else none) <|> mrScan rest

/-! ## The subject-line grammar of `re_parser` (angular.py)

Pattern: `(?P<type>tag1|tag2|...)(?:\((?P<scope>[^\n]+)\))?(?P<break>!)?:\s+`
`(?P<subject>[^\n]+)(?:\n\n(?P<text>.+))?` compiled with `re.DOTALL` and used
with `re.match` (anchored at the start of the message, no requirement to
reach the end). -/

structure AngularMatch where
  ptype : String
  scope : Option String
  brk : Bool
  subject : String
  text : Option String
deriving DecidableEq, Repr

/-- The optional commit body `(?:\n\n(?P<text>.+))?` right after the greedy
subject: matches exactly when a blank line and at least one further
character follow; with `re.DOTALL` the `.+` swallows the whole remainder. -/
def textOf (rest : List Char) : Option String :=
  match rest with
  | '\n' :: '\n' :: c :: r => some (c :: r).asString
  | _ => none

/-- `\s+(?P<subject>[^\n]+)` with the trailing optional body: the whitespace
run is taken greedily; when the remainder is all whitespace the engine
backtracks to the latest non-`\n` whitespace character, which then starts
the subject. -/
def matchWsSubject (cs : List Char) : Option (String × Option String) :=
  let w := (cs.takeWhile isPyWs).length
  if w = 0 then none
  else if w < cs.length then
    let subj := (cs.drop w).takeWhile (· ≠ '\n')
    some (subj.asString, textOf ((cs.drop w).drop subj.length))
  else
    ((List.range w).reverse.filter (1 ≤ ·)).findSome? fun k =>
      match cs[k]? with
      | some c =>
          if c ≠ '\n' then
            let subj := (cs.drop k).takeWhile (· ≠ '\n')
            some (subj.asString, textOf ((cs.drop k).drop subj.length))
          else none
      | none => none

/-- `(?P<break>!)?:` followed by the whitespace/subject/body tail. -/
def matchTail (cs : List Char) : Option (Bool × String × Option String) :=
  match cs with
  | '!' :: ':' :: r2 => (matchWsSubject r2).map fun (s, t) => (true, s, t)
  | ':' :: r2 => (matchWsSubject r2).map fun (s, t) => (false, s, t)
  | _ => none

/-- The optional scope group `(?:\((?P<scope>[^\n]+)\))?` with its
continuation: when the remainder opens with `(`, the closing `)` candidates
on the first line are tried longest-scope-first (greedy `[^\n]+` with
backtracking); when no candidate's continuation matches, the whole match
fails, since the continuation cannot start at `(`. -/
def matchAfterType (cs : List Char) :
    Option (Option String × Bool × String × Option String) :=
  match cs with
  | '(' :: rest =>
      let firstNl := (rest.takeWhile (· ≠ '\n')).length
      ((List.range firstNl).reverse.filter (1 ≤ ·)).findSome? fun j =>
        if rest[j]? = some ')' then
          (matchTail (rest.drop (j + 1))).map fun (b, s, t) =>
            (some (rest.take j).asString, b, s, t)
        else none
  | _ => (matchTail cs).map fun (b, s, t) => (none, b, s, t)

/-! ## Parser options (`AngularParserOptions`, angular.py) -/

structure AngularParserOptions where
  minorTags : List String := ["feat"]
  patchTags : List String := ["fix", "perf"]
  allowedTags : List String :=
    ["feat", "fix", "perf", "build", "chore", "ci", "docs", "style",
     "refactor", "test"]
  defaultBumpLevel : LevelBump := .NO_RELEASE
  parseSquashCommits : Bool := false
deriving Repr

def defaultAngularOptions : AngularParserOptions := {}

/-- The `tag_to_level` mapping built in `AngularParserOptions.__post_init__`:
every allowed tag is first mapped to the default bump level, then the patch
tags are overridden with `PATCH` and finally the minor tags with `MINOR`;
`tag_to_level.get(parsed_type, default_bump_level)` falls back to the
default for unmapped types. -/
def tagToLevel (opts : AngularParserOptions) (t : String) : LevelBump :=
  if t ∈ opts.minorTags then .MINOR
  else if t ∈ opts.patchTags then .PATCH
  else opts.defaultBumpLevel

/-- The full `re_parser.match(message)`: the type alternation tries the
allowed tags in declaration order (with backtracking into the rest of the
pattern), then scope, break marker, subject and body. -/
def reParserMatch (opts : AngularParserOptions) (m : List Char) :
    Option AngularMatch :=
  opts.allowedTags.findSome? fun t =>
    if t.toList.isPrefixOf m then
      (matchAfterType (m.drop t.toList.length)).map fun (sc, b, s, tx) =>
        { ptype := t, scope := sc, brk := b, subject := s, text := tx }
    else none

/-- `LONG_TYPE_NAMES` (angular.py). -/
def LONG_TYPE_NAMES : List (String × String) :=
  [("build", "build system"), ("ci", "continuous integration"),
   ("chore", "chores"), ("docs", "documentation"), ("feat", "features"),
   ("fix", "bug fixes"), ("perf", "performance improvements"),
   ("refactor", "refactoring"), ("style", "code style"), ("test", "testing")]

def longTypeName (t : String) : String :=
  ((LONG_TYPE_NAMES.find? (fun p => p.1 = t)).map Prod.snd).getD t

/-! ## Body classification and `_parse` (angular.py) -/

/-- The accumulator threaded through
`AngularCommitParser.commit_body_components_separator`. -/
structure BodyComponents where
  breakingDescriptions : List String
  descriptions : List String
  linkedIssues : List String
deriving DecidableEq, Repr

/-- `commit_body_components_separator` (angular.py, lines 168-184): a
breaking-change paragraph contributes its capture group to
`breaking_descriptions`; otherwise an issue-closing paragraph contributes its
references to `linked_issues`; in every case the paragraph itself is appended
to `descriptions` (the v10 `return accumulator` statements that would remove
classified paragraphs from the descriptions are commented out in the
source). -/
def sepStep (acc : BodyComponents) (text : String) : BodyComponents :=
  match breakingMatch text.toList with
  | some g =>
      { acc with
          breakingDescriptions := acc.breakingDescriptions ++ [g.asString],
          descriptions := acc.descriptions ++ [text] }
  | none =>
      match issueSearch text.toList with
      | some pred =>
          { acc with
              linkedIssues := acc.linkedIssues ++ issueRefs pred,
              descriptions := acc.descriptions ++ [text] }
      | none => { acc with descriptions := acc.descriptions ++ [text] }

/-- `AngularCommitParser._parse` (angular.py, lines 186-246): match the
message against `re_parser`; an unmatched message becomes a `ParseError`
value carrying the failure text; a matched one is classified into a
`ParsedCommit` whose bump is `MAJOR` when a breaking-change paragraph or the
`!` marker is present, else the level configured for the type tag. -/
def angularParse (opts : AngularParserOptions) (message : String) :
    ParseResult :=
  match reParserMatch opts message.toList with
  | none =>
      .failed { message := message,
                error := "Unable to parse commit message: " ++ message }
  | some g =>
      let mr := ((mrScan g.subject.toList).map List.asString).getD ""
      let comps :=
        (g.subject :: parseParagraphs (g.text.getD "")).foldl sepStep
          ⟨[], [], []⟩
      .parsed
        { bump :=
            if comps.breakingDescriptions ≠ [] ∨ g.brk then .MAJOR
            else tagToLevel opts g.ptype,
          ptype := longTypeName g.ptype,
          scope := g.scope,
          descriptions := comps.descriptions,
          breakingDescriptions := comps.breakingDescriptions,
          message := message,
          linkedIssues := comps.linkedIssues,
          linkedMergeRequest := mr }

/-- `AngularCommitParser.parse` (angular.py, lines 252-293) for options with
`parse_squash_commits = False` (the default): the commit is parsed as a
single message, and the merge-request propagation over the one-element list
is the identity. -/
def parseCommit (opts : AngularParserOptions) (message : String) :
    List ParseResult :=
  [angularParse opts message]

/-! ## Version strings and parsing

Modelled from the spec: `Version.parse` and its semantic-version grammar
`MAJOR.MINOR.PATCH[-PRERELEASE_TOKEN.REVISION][+BUILD]` (§4.1) — `version.py`
and the `SEMVER_REGEX` constant are not under `src/`.  Numbers are
non-negative integers without leading zeros; the prerelease token matches
`[A-Za-z-][A-Za-z0-9-]*` with the digits-only trailing segment parsed as the
revision; build metadata is opaque non-empty text.  A version without a
prerelease part carries the default token `"rc"` (pinned by
`test_version_parse_succeeds`). -/

def digitsToNat (ds : List Char) : Nat :=
  ds.foldl (fun n c => n * 10 + (c.toNat - '0'.toNat)) 0

/-- A semver numeric identifier: a non-empty digit run without leading
zeros.  Returns its value and the remainder. -/
def parseNumPart (cs : List Char) : Option (Nat × List Char) :=
  let ds := cs.takeWhile Char.isDigit
  if ds = [] then none
  else if 1 < ds.length ∧ ds.head? = some '0' then none
  else some (digitsToNat ds, cs.drop ds.length)

def isTokenChar (c : Char) : Bool := c.isAlpha ∨ c.isDigit ∨ c = '-'

/-- The part after `MAJOR.MINOR.PATCH`: optional `-TOKEN.REVISION`, optional
`+BUILD`. -/
def parseVersionTail (major minor patch : Nat) (rest : List Char) :
    Option Version :=
  match rest with
  | [] => some ⟨major, minor, patch, "rc", none, ""⟩
  | '+' :: b =>
      if b ≠ [] then some ⟨major, minor, patch, "rc", none, b.asString⟩
      else none
  | '-' :: p =>
      match p with
      | c :: _ =>
          if c.isAlpha ∨ c = '-' then
            let tok := p.takeWhile isTokenChar
            match p.drop tok.length with
            | '.' :: r =>
                let ds := r.takeWhile Char.isDigit
                if ds = [] then none
                else
                  match r.drop ds.length with
                  | [] =>
                      some ⟨major, minor, patch, tok.asString,
                            some (digitsToNat ds), ""⟩
                  | '+' :: b =>
                      if b ≠ [] then
                        some ⟨major, minor, patch, tok.asString,
                              some (digitsToNat ds), b.asString⟩
                      else none
                  | _ => none
            | _ => none
          else none
      | [] => none
  | _ => none

/-- Modelled from the spec: `Version.parse` for the identity tag format
(§4.1); fails (returns `none`, standing for `InvalidVersionError`) when the
text does not match the grammar. -/
def parseVersion (s : String) : Option Version :=
  match parseNumPart s.toList with
  | none => none
  | some (major, r1) =>
      match r1 with
      | '.' :: r2 =>
          match parseNumPart r2 with
          | none => none
          | some (minor, r3) =>
              match r3 with
              | '.' :: r4 =>
                  match parseNumPart r4 with
                  | none => none
                  | some (patch, r5) => parseVersionTail major minor patch r5
              | _ => none
      | _ => none

/-- `str(version)`: `MAJOR.MINOR.PATCH`, the prerelease part exactly when a
revision is present, the build metadata part exactly when non-empty (pinned
by `test_version_parse_succeeds`). -/
def versionToString (v : Version) : String :=
  toString v.major ++ "." ++ toString v.minor ++ "." ++ toString v.patch
    ++ (match v.prereleaseRevision with
        | some r => "-" ++ v.prereleaseToken ++ "." ++ toString r
        | none => "")
    ++ (if v.buildMetadata ≠ "" then "+" ++ v.buildMetadata else "")

/-! ## Tag formats and the translator

A tag format template is modelled as a list of segments: literal chunks and
`{name}` replacement fields, as produced by Python's `string.Formatter`
parsing of the template (so the template `"v{version}"` is
`[.lit "v", .field "version"]`). -/

inductive TagFmtSeg where
  | lit (s : String)
  | field (name : String)
deriving DecidableEq, Repr

/-- Modelled from the spec: `check_tag_format`
(`semantic_release/helpers.py`, not under `src/`), called from
`SemVerTag2VersionConverter.__init__` (src/src/semantic_release/version/
translator.py) and from the `tag_format` setter: the template is rejected
with a `ValueError` exactly when no `{version}` replacement field occurs in
it (the in-src test `test_change_tag_format_updates_as_tag_method` pins that
a template with *two* `{version}` fields is accepted). -/
def checkTagFormat (fmt : List TagFmtSeg) : Except String Unit :=
  if fmt.any (fun s => s = .field "version") then .ok ()
  else .error "Invalid tag_format, must use version as a format key"

def countVersionFields (fmt : List TagFmtSeg) : Nat :=
  (fmt.filter (fun s => s = .field "version")).length

/-- `tag_format.format(version=s)`: substitute `s` for every `{version}`
field; `none` models the `KeyError` raised when the template contains a
replacement field other than `version`. -/
def renderTagFormat (fmt : List TagFmtSeg) (s : String) : Option String :=
  if fmt.all (fun seg => match seg with | .lit _ => true | .field n => n = "version") then
    some (String.join (fmt.map fun seg =>
      match seg with
      | .lit l => l
      | .field _ => s))
  else none

/-- `Version.as_tag()`: render the configured tag format with
`version=str(self)` (spec §4.1, pinned by
`test_change_tag_format_updates_as_tag_method`). -/
def asTag (fmt : List TagFmtSeg) (v : Version) : Option String :=
  renderTagFormat fmt (versionToString v)

/-- Drop a literal suffix; `none` when it is not a suffix. -/
def dropSuffixL (suf cs : List Char) : Option (List Char) :=
  if suf.length ≤ cs.length ∧ cs.drop (cs.length - suf.length) = suf then
    some (cs.take (cs.length - suf.length))
  else none

/-- `SemVerTag2VersionConverter.from_tag` (src/src/semantic_release/version/
translator.py) for a tag format `pre ++ "{version}" ++ suf` with its single
`{version}` placeholder: when the tag matches the inverted tag-format
pattern the embedded version string is parsed, otherwise `None` is returned
(no exception).  The inverted pattern (built on the `SEMVER_REGEX` constant,
which is not under `src/`) is modelled from the spec as the decomposition
`tag = pre ++ core ++ suf` with `core` in the semantic-version grammar. -/
def fromTag (pre suf : String) (tag : String) : Option Version :=
  match dropLit pre.toList tag.toList with
  | none => none
  | some r =>
      match dropSuffixL suf.toList r with
      | none => none
      | some core => parseVersion core.asString

/-- A release as reconstructed from a VCS tag (spec §3: the parts the
embedded operations read). -/
structure Release where
  tagName : String
  version : Version
deriving DecidableEq, Repr

/-- `Release.from_git_tag` (src/semantic_release/version/release.py): raises
`InvalidVersion` when the tag name does not match the tag format, modelled
as the `Except` error value. -/
def fromGitTag (pre suf : String) (tag : String) : Except String Release :=
  match fromTag pre suf tag with
  | none => .error ("Tag " ++ tag ++ " does not match the tag format")
  | some v => .ok ⟨tag, v⟩

/-- Modelled from the spec: `releases_from_tags` — the release-history
reconstruction (§4.3, `semantic_release/version/algorithm.py` /
release-history code not under `src/`): each tag matching the inverted
tag-format pattern yields a release; non-matching tags are silently skipped
(not an error). -/
def releasesFromTags (pre suf : String) (tags : List String) : List Release :=
  tags.filterMap fun t => (fromTag pre suf t).map fun v => ⟨t, v⟩

/-- Cap the bump carried by a parsed commit at `MINOR` (parse errors are
untouched); used to state that the `major_on_zero = False` policy behaves as
if every commit's level had been capped up front. -/
def capBump (r : ParseResult) : ParseResult :=
  match r with
  | .parsed pc => .parsed { pc with bump := pc.bump.lmin .MINOR }
  | .failed e => .failed e

/-! ## Claim C4 — `Version.bump` on the digit levels -/

/-- Claim C4, counterexample: bumping the prerelease `1.2.3-rc.1` by `PATCH`
yields `1.2.4-rc.1`, which is still a prerelease — the claim's "returns a
non-prerelease version (any prerelease token and revision of v are cleared)"
fails (this is the very row of the cited `test_version_bump_succeeds`
table). -/
theorem C4_counterexample :
    (Version.bump ⟨1, 2, 3, "rc", some 1, ""⟩ .PATCH).isPrerelease = true
      ∧ Version.bump ⟨1, 2, 3, "rc", some 1, ""⟩ .PATCH
          = ⟨1, 2, 4, "rc", some 1, ""⟩
      ∧ Version.bump ⟨1, 2, 3, "rc", some 1, ""⟩ .PATCH
          ≠ ⟨1, 2, 4, "rc", none, ""⟩ := by
  refine ⟨rfl, rfl, ?_⟩
  intro h
  exact Option.noConfusion (congrArg Version.prereleaseRevision h)

/-- Claim C4 (amended): for every version `v` and level in
`{PATCH, MINOR, MAJOR}`, `v.bump(level)` increments the corresponding digit
and zeroes all lower-significance digits; the prerelease *token* is
preserved, and rather than being cleared the prerelease state is preserved:
the result's revision is reset to 1 when `v` is a prerelease and stays
absent when it is not. -/
theorem C4_bump_digit_levels (v : Version) :
    v.bump .PATCH
        = ⟨v.major, v.minor, v.patch + 1, v.prereleaseToken,
           if v.isPrerelease then some 1 else none, v.buildMetadata⟩
      ∧ v.bump .MINOR
          = ⟨v.major, v.minor + 1, 0, v.prereleaseToken,
             if v.isPrerelease then some 1 else none, v.buildMetadata⟩
      ∧ v.bump .MAJOR
          = ⟨v.major + 1, 0, 0, v.prereleaseToken,
             if v.isPrerelease then some 1 else none, v.buildMetadata⟩ :=
  ⟨rfl, rfl, rfl⟩

/-! ## Claim C5 — `Version.to_prerelease` with an omitted revision -/

/-- Claim C5, counterexample: `to_prerelease("rc")` on `1.1.1-rc.2` returns
`1.1.1-rc.2` unchanged — the revision is *not* incremented to 3, so repeated
same-token calls do not strictly increase the revision (this is a row of the
cited `test_version_to_prerelease_defaults` table). -/
theorem C5_counterexample :
    Version.toPrerelease ⟨1, 1, 1, "rc", some 2, ""⟩ (some "rc") none
        = ⟨1, 1, 1, "rc", some 2, ""⟩
      ∧ Version.toPrerelease ⟨1, 1, 1, "rc", some 2, ""⟩ (some "rc") none
          ≠ ⟨1, 1, 1, "rc", some 3, ""⟩ := by
  refine ⟨rfl, ?_⟩
  intro h
  have h2 := congrArg Version.prereleaseRevision h
  simp [Version.toPrerelease, Version.isPrerelease] at h2

/-- Claim C5 (amended): `v.to_prerelease(token)` with the revision omitted
yields revision 1 when `v` is not a prerelease, *keeps* `v`'s existing
revision unchanged when `v` is a prerelease with the same token (so repeated
`to_prerelease` calls with the same token are idempotent rather than
strictly increasing), and resets the revision to 1 when the token
differs. -/
theorem C5_to_prerelease_defaults (v : Version) (tok : String) :
    (v.isPrerelease = false →
        v.toPrerelease (some tok) none
          = { v with prereleaseToken := tok, prereleaseRevision := some 1 })
      ∧ (v.isPrerelease = true → tok = v.prereleaseToken →
          v.toPrerelease (some tok) none = v)
      ∧ (v.isPrerelease = true → tok ≠ v.prereleaseToken →
          v.toPrerelease (some tok) none
            = { v with prereleaseToken := tok, prereleaseRevision := some 1 })
      ∧ (v.toPrerelease (some tok) none).toPrerelease (some tok) none
          = v.toPrerelease (some tok) none := by
  refine ⟨?_, ?_, ?_, ?_⟩
  · intro h
    simp [Version.toPrerelease, h]
  · intro h htok
    cases v with
    | mk a b c d e f =>
        cases e with
        | none => simp [Version.isPrerelease] at h
        | some r => simp_all [Version.toPrerelease, Version.isPrerelease]
  · intro h htok
    simp [Version.toPrerelease, htok]
  · cases v with
    | mk a b c d e f =>
        cases e with
        | none => simp [Version.toPrerelease, Version.isPrerelease]
        | some r =>
            by_cases ht : tok = d
            · simp [Version.toPrerelease, Version.isPrerelease, ht]
            · simp [Version.toPrerelease, Version.isPrerelease, ht]

/-- Witness for C5: concrete instances discharging each hypothesis of the
amended theorem. -/
theorem C5_witness :
    Version.toPrerelease ⟨1, 2, 3, "rc", none, ""⟩ (some "beta") none
        = ⟨1, 2, 3, "beta", some 1, ""⟩
      ∧ Version.toPrerelease ⟨2, 0, 0, "beta", some 4, ""⟩ (some "beta") none
          = ⟨2, 0, 0, "beta", some 4, ""⟩
      ∧ Version.toPrerelease ⟨1, 1, 1, "rc", some 2, ""⟩ (some "alpha") none
          = ⟨1, 1, 1, "alpha", some 1, ""⟩ :=
  ⟨(C5_to_prerelease_defaults ⟨1, 2, 3, "rc", none, ""⟩ "beta").1 rfl,
   (C5_to_prerelease_defaults ⟨2, 0, 0, "beta", some 4, ""⟩ "beta").2.1 rfl rfl,
   (C5_to_prerelease_defaults ⟨1, 1, 1, "rc", some 2, ""⟩ "alpha").2.2.1 rfl
     (by decide)⟩

/-! ## Claims C6/C7 — the Angular parser -/

/-- `trySepMatch` consumes at least one character, so `cs.length` fuel steps
always suffice for `replaceSepsAux`. -/
theorem trySepMatch_shrinks (cs : List Char) :
    ∀ rest, trySepMatch cs = some rest → rest.length < cs.length := by
  induction cs with
  | nil => intro rest h; simp [trySepMatch] at h
  | cons c tl ih =>
      intro rest h
      simp only [trySepMatch] at h
      by_cases h1 : c = ',' ∨ c = ';' ∨ c = '/'
      · simp only [h1, if_true, Option.some.injEq] at h
        subst h
        have : (tl.dropWhile (· = ' ')).length ≤ tl.length := by
          have := List.dropWhile_sublist (l := tl) (p := (· = ' '))
          exact this.length_le
        simp only [List.length_cons]; omega
      · simp only [h1, if_false] at h
        by_cases h2 : c = ' '
        · simp only [h2, if_true, Option.some.injEq] at h
          subst h
          cases hin : trySepMatch tl with
          | some r =>
              have := ih r hin
              simp only [hin, Option.getD_some, List.length_cons]; omega
          | none => simp only [hin, Option.getD_none, List.length_cons]; omega
        · simp [h2] at h

/-- Folding `commit_body_components_separator` collects exactly the
breaking-change capture groups of the paragraphs, in order. -/
theorem sepFold_breaking (ps : List String) (acc : BodyComponents) :
    (ps.foldl sepStep acc).breakingDescriptions
      = acc.breakingDescriptions
        ++ ps.filterMap (fun p => (breakingMatch p.toList).map List.asString) := by
  induction ps generalizing acc with
  | nil => simp
  | cons p ps ih =>
      rw [List.foldl_cons, ih, List.filterMap_cons]
      unfold sepStep
      cases hb : breakingMatch p.toList with
      | some g => simp
      | none =>
          cases hi : issueSearch p.toList with
          | some q => simp
          | none => simp

/-- Claim C6: for every commit message whose subject line matches the
Angular grammar, the resulting bump is `MAJOR` exactly when a
`BREAKING CHANGE` paragraph was found among the subject and body paragraphs
or the `!` marker is present; otherwise it is the level configured for the
matched type tag (the configured default level for
recognized-but-unmapped types) — and under the default options no
configured level is `MAJOR`, so there `MAJOR` occurs *only* through a
breaking change or the marker. -/
theorem C6_bump_determination (opts : AngularParserOptions) (msg : String)
    (g : AngularMatch) (hm : reParserMatch opts msg.toList = some g) :
    ∃ pc, angularParse opts msg = .parsed pc
      ∧ pc.bump = (if pc.breakingDescriptions ≠ [] ∨ g.brk = true
                   then LevelBump.MAJOR else tagToLevel opts g.ptype)
      ∧ (pc.breakingDescriptions ≠ []
          ↔ ∃ p ∈ g.subject :: parseParagraphs (g.text.getD ""),
              (breakingMatch p.toList).isSome = true)
      ∧ (∀ t, tagToLevel defaultAngularOptions t ≠ .MAJOR) := by
  unfold angularParse
  rw [hm]
  refine ⟨_, rfl, ?_, ?_, ?_⟩
  · rfl
  · rw [sepFold_breaking]
    simp only [List.nil_append, ne_eq, List.filterMap_eq_nil_iff, not_forall]
    constructor
    · rintro ⟨p, hp, hne⟩
      refine ⟨p, hp, ?_⟩
      cases hb : breakingMatch p.toList with
      | some q => rfl
      | none => exact absurd (by rw [hb]; rfl) hne
    · rintro ⟨p, hp, hsome⟩
      refine ⟨p, hp, ?_⟩
      cases hb : breakingMatch p.toList with
      | some q => simp
      | none => rw [hb] at hsome; simp at hsome
  · intro t
    unfold tagToLevel defaultAngularOptions
    split_ifs <;> decide

/-- Witness for C6: the message `feat!: breaking api` matches the grammar
with the `!` marker, and its bump is `MAJOR`. -/
theorem C6_witness :
    ∃ pc, angularParse defaultAngularOptions "feat!: breaking api" = .parsed pc
      ∧ pc.bump = .MAJOR := by
  obtain ⟨pc, h1, h2, h3, h4⟩ := C6_bump_determination defaultAngularOptions
    "feat!: breaking api" ⟨"feat", none, true, "breaking api", none⟩ rfl
  refine ⟨pc, h1, ?_⟩
  rw [h2]
  simp

/-- Claim C7: the Angular parser's `parse` is a total function into parse
*results*: an unmatched message yields a `ParseError` value carrying the
failure text (never an exception), a matched one a `ParsedCommit`; the
`CommitParseError` exception arises only when a caller explicitly invokes
`raise_error` on a `ParseError`, which raises exactly the carried error
text. -/
theorem C7_parse_never_raises (msg : String) :
    (reParserMatch defaultAngularOptions msg.toList = none →
        parseCommit defaultAngularOptions msg
          = [.failed ⟨msg, "Unable to parse commit message: " ++ msg⟩])
      ∧ (∀ g, reParserMatch defaultAngularOptions msg.toList = some g →
          ∃ pc, parseCommit defaultAngularOptions msg = [.parsed pc])
      ∧ (∀ e : ParseErrorResult, e.raiseError = ⟨e.error⟩) := by
  refine ⟨?_, ?_, fun e => rfl⟩
  · intro h
    unfold parseCommit angularParse
    rw [h]
  · intro g h
    unfold parseCommit angularParse
    rw [h]
    exact ⟨_, rfl⟩

/-- Witness for C7: a malformed message becomes a `ParseError` value with
the failure text, a valid one a `ParsedCommit`. -/
theorem C7_witness :
    parseCommit defaultAngularOptions "not a commit"
        = [.failed ⟨"not a commit",
             "Unable to parse commit message: not a commit"⟩]
      ∧ (∃ pc, parseCommit defaultAngularOptions "feat: add X"
          = [.parsed pc]) :=
  ⟨(C7_parse_never_raises "not a commit").1 rfl,
   (C7_parse_never_raises "feat: add X").2.1
     ⟨"feat", none, false, "add X", none⟩ rfl⟩

/-! ## Claim C8 — tag-format acceptance and `as_tag` -/

/-- Claim C8, counterexample: the template `"{version}-demo-{version}"`
contains *two* `{version}` placeholders yet is accepted (it is a row of the
cited `test_change_tag_format_updates_as_tag_method` table), refuting the
claim that acceptance requires *exactly one* placeholder; `as_tag` then
substitutes the version at every placeholder. -/
theorem C8_counterexample :
    checkTagFormat [.field "version", .lit "-demo-", .field "version"]
        = .ok ()
      ∧ countVersionFields [.field "version", .lit "-demo-", .field "version"]
          = 2
      ∧ asTag [.field "version", .lit "-demo-", .field "version"]
          ⟨1, 2, 3, "rc", none, ""⟩ = some "1.2.3-demo-1.2.3" :=
  ⟨rfl, rfl, rfl⟩

/-- Claim C8 (amended): a tag format template is accepted exactly when it
contains *at least one* `{version}` placeholder, and rejected with a
`ValueError` otherwise (in particular a template with no placeholder is
rejected); for every version `v` under an accepted template whose
replacement fields are all `{version}`, `as_tag()` equals the template with
`str(v)` substituted at *every* `{version}` placeholder. -/
theorem C8_tag_format (fmt : List TagFmtSeg) :
    (checkTagFormat fmt = .ok () ↔ 1 ≤ countVersionFields fmt)
      ∧ (∀ e, checkTagFormat fmt = .error e → countVersionFields fmt = 0)
      ∧ (∀ v : Version,
          (∀ n, TagFmtSeg.field n ∈ fmt → n = "version") →
            asTag fmt v
              = some (String.join (fmt.map fun seg =>
                  match seg with
                  | .lit l => l
                  | .field _ => versionToString v))) := by
  have hcount : (fmt.any (fun s => s = .field "version")) = true
      ↔ 1 ≤ countVersionFields fmt := by
    rw [List.any_eq_true]
    unfold countVersionFields
    constructor
    · rintro ⟨s, hs, hv⟩
      have : s ∈ fmt.filter (fun s => s = .field "version") :=
        List.mem_filter.mpr ⟨hs, hv⟩
      have := List.length_pos.mpr (List.ne_nil_of_mem this)
      omega
    · intro h
      have : fmt.filter (fun s => s = .field "version") ≠ [] := by
        intro hnil
        rw [hnil] at h
        simp at h
      obtain ⟨s, hs⟩ := List.exists_mem_of_ne_nil _ this
      exact ⟨s, (List.mem_filter.mp hs).1, (List.mem_filter.mp hs).2⟩
  refine ⟨?_, ?_, ?_⟩
  · unfold checkTagFormat
    by_cases h : fmt.any (fun s => s = .field "version") = true
    · simp [h, hcount.mp h]
    · simp only [h, if_neg, Bool.not_eq_true, if_false]
      constructor
      · intro he
        exact absurd he (by simp)
      · intro hone
        exact absurd (hcount.mpr hone) h
  · intro e he
    unfold checkTagFormat at he
    by_cases h : fmt.any (fun s => s = .field "version") = true
    · simp [h] at he
    · by_contra hne
      have h1 : 1 ≤ countVersionFields fmt := by omega
      exact absurd (hcount.mpr h1) h
  · intro v hfields
    unfold asTag renderTagFormat
    rw [if_pos]
    rw [List.all_eq_true]
    intro seg hseg
    cases seg with
    | lit s => rfl
    | field n => simpa using hfields n hseg

/-- Witness for C8: the amended theorem applied to the identity-prefixed
template `v{version}` of the default configuration. -/
theorem C8_witness :
    (checkTagFormat [.lit "v", .field "version"] = .ok ()
        ↔ 1 ≤ countVersionFields [.lit "v", .field "version"])
      ∧ asTag [.lit "v", .field "version"] ⟨1, 2, 3, "rc", none, ""⟩
          = some "v1.2.3" := by
  have h := C8_tag_format [.lit "v", .field "version"]
  refine ⟨h.1, ?_⟩
  have h3 := h.2.2 ⟨1, 2, 3, "rc", none, ""⟩ (by intro n hn; simpa using hn)
  rw [h3]
  rfl

/-! ## Claim C9 — non-matching tags are skipped, matching tags parsed -/

/-- Claim C9: a VCS tag that does not match the inverted tag-format pattern
converts to no version (`from_tag` returns `None`, a value rather than an
exception) and is silently skipped by the release-history reconstruction; a
matching tag has its embedded version parsed into the reconstructed release
(and `Release.from_git_tag` succeeds on it). -/
theorem C9_tag_skipping (pre suf t : String) (tags : List String) :
    (fromTag pre suf t = none →
        releasesFromTags pre suf (t :: tags) = releasesFromTags pre suf tags)
      ∧ (∀ v, fromTag pre suf t = some v →
          releasesFromTags pre suf (t :: tags)
              = ⟨t, v⟩ :: releasesFromTags pre suf tags
            ∧ fromGitTag pre suf t = .ok ⟨t, v⟩) := by
  constructor
  · intro h
    simp [releasesFromTags, List.filterMap_cons, h]
  · intro v h
    constructor
    · simp [releasesFromTags, List.filterMap_cons, h]
    · simp [fromGitTag, h]

/-- Witness for C9: with the default tag format `v{version}`, the tag
`not-a-release` is skipped while `v1.2.3` is parsed. -/
theorem C9_witness :
    releasesFromTags "v" "" ["not-a-release", "v1.2.3"]
        = releasesFromTags "v" "" ["v1.2.3"]
      ∧ releasesFromTags "v" "" ["v1.2.3"]
          = [⟨"v1.2.3", ⟨1, 2, 3, "rc", none, ""⟩⟩]
      ∧ fromGitTag "v" "" "v1.2.3" = .ok ⟨"v1.2.3", ⟨1, 2, 3, "rc", none, ""⟩⟩ := by
  have h1 := (C9_tag_skipping "v" "" "not-a-release" ["v1.2.3"]).1 rfl
  have h2 := (C9_tag_skipping "v" "" "v1.2.3" []).2 ⟨1, 2, 3, "rc", none, ""⟩ rfl
  exact ⟨h1, h2.1, h2.2⟩

/-! ## Claim C10 — classified paragraphs stay in the descriptions -/

/-- Claim C10: `commit_body_components_separator` appends *every* paragraph
to the plain `descriptions` list — including a `BREAKING CHANGE` paragraph
(whose capture group is also appended to `breaking_descriptions`) and an
issue-closing paragraph (whose references are also appended to
`linked_issues`) — rather than separating classified paragraphs out. -/
theorem C10_descriptions_keep_classified (acc : BodyComponents) (t : String) :
    ((sepStep acc t).descriptions = acc.descriptions ++ [t])
      ∧ (∀ g, breakingMatch t.toList = some g →
          (sepStep acc t).breakingDescriptions
              = acc.breakingDescriptions ++ [g.asString]
            ∧ t ∈ (sepStep acc t).descriptions)
      ∧ (∀ p, breakingMatch t.toList = none → issueSearch t.toList = some p →
          (sepStep acc t).linkedIssues = acc.linkedIssues ++ issueRefs p
            ∧ t ∈ (sepStep acc t).descriptions) := by
  refine ⟨?_, ?_, ?_⟩
  · unfold sepStep
    cases hb : breakingMatch t.toList with
    | some g => simp
    | none =>
        cases hi : issueSearch t.toList with
        | some p => simp
        | none => simp
  · intro g hg
    unfold sepStep
    rw [hg]
    simp
  · intro p hb hi
    unfold sepStep
    rw [hb, hi]
    simp

/-- Witness for C10: the breaking-change paragraph
`BREAKING CHANGE: boom` and the issue paragraph `closes: #1, #2` both land
in the descriptions as well as in their dedicated lists. -/
theorem C10_witness :
    (sepStep ⟨[], [], []⟩ "BREAKING CHANGE: boom").breakingDescriptions
        = ["boom"]
      ∧ "BREAKING CHANGE: boom"
          ∈ (sepStep ⟨[], [], []⟩ "BREAKING CHANGE: boom").descriptions
      ∧ (sepStep ⟨[], [], []⟩ "closes: #1, #2").linkedIssues = ["#1", "#2"]
      ∧ "closes: #1, #2" ∈ (sepStep ⟨[], [], []⟩ "closes: #1, #2").descriptions := by
  have h1 := (C10_descriptions_keep_classified ⟨[], [], []⟩
    "BREAKING CHANGE: boom").2.1 "boom".toList rfl
  have h2 := (C10_descriptions_keep_classified ⟨[], [], []⟩
    "closes: #1, #2").2.2 "#1, #2".toList rfl rfl
  refine ⟨h1.1, h1.2, ?_, h2.2⟩
  rw [h2.1]
  rfl

/-! ## Claim C1 — the no-op guard and the zero-version policy -/

/-- Claim C1, counterexample: with `last_version = 0.0.0`,
`allow_zero_version = False` and *zero* releasable commits, `next_version`
returns `1.0.0` (the forced `MAJOR` bump of the zero-version policy), not
`0.0.0` unchanged — the cited scenario rows
(`tests/scenario/test_next_version.py`, no-tags repository,
`allow_zero_version=False`) expect exactly `1.0.0` / `1.0.0-rc.1` here. -/
theorem C1_counterexample :
    nextVersion ⟨0, 0, 0, "rc", none, ""⟩ ⟨0, 0, 0, "rc", none, ""⟩ []
        false "rc" true false none = ⟨1, 0, 0, "rc", none, ""⟩
      ∧ nextVersion ⟨0, 0, 0, "rc", none, ""⟩ ⟨0, 0, 0, "rc", none, ""⟩ []
          false "rc" true false none ≠ ⟨0, 0, 0, "rc", none, ""⟩ := by
  refine ⟨rfl, ?_⟩
  intro h
  rw [show nextVersion ⟨0, 0, 0, "rc", none, ""⟩ ⟨0, 0, 0, "rc", none, ""⟩ []
      false "rc" true false none = ⟨1, 0, 0, "rc", none, ""⟩ from rfl] at h
  exact Nat.noConfusion (congrArg Version.major h)

/-- Claim C1 (amended): in non-strict mode, when the unreleased parsed
commits aggregate to `NO_RELEASE`, the returned version equals
`last_version` unchanged (plus build metadata) *provided* the last version
is not a prerelease or a prerelease is requested, *and* the last version's
major digit is non-zero or `allow_zero_version` is true.  When the last
(full-release) version is `0.x` and `allow_zero_version` is false, the
zero-version policy fires before the no-op guard: even with zero releasable
commits a `MAJOR` bump to `1.0.0` is forced (converted to a prerelease of
the configured token when one is requested). -/
theorem C1_no_release_guard (last lastFull : Version)
    (results : List ParseResult) (pre : Bool) (tok : String)
    (moz azv : Bool) (bm : Option String)
    (hagg : aggLevel results = .NO_RELEASE) :
    ((last.isPrerelease = false ∨ pre = true) →
        (last.major ≠ 0 ∨ azv = true) →
        nextVersion last lastFull results pre tok moz azv bm
          = withBuild bm last)
      ∧ (last.isPrerelease = false → last.major = 0 → azv = false →
          nextVersion last lastFull results pre tok moz azv bm
            = withBuild bm
                (if pre then (last.bump .MAJOR).toPrerelease (some tok) none
                 else last.bump .MAJOR)) := by
  constructor
  · intro h1 h2
    simp only [nextVersion]
    rw [hagg]
    rw [if_pos ⟨rfl, h1, h2⟩]
  · intro hpre hmaj hazv
    simp only [nextVersion]
    rw [hagg]
    rw [if_neg (by simp [hmaj, hazv])]
    rw [if_neg (by simp)]
    simp [zeroAdjust, hmaj, hazv, hpre]

/-- Witness for C1: the guard returns `1.2.3` unchanged for a non-zero-major
last version, while `0.0.0` with `allow_zero_version=False` is forced to
`1.0.0-rc.1` under `prerelease=True` — both with zero releasable commits. -/
theorem C1_witness :
    nextVersion ⟨1, 2, 3, "rc", none, ""⟩ ⟨1, 2, 3, "rc", none, ""⟩ []
        false "rc" true true none = ⟨1, 2, 3, "rc", none, ""⟩
      ∧ nextVersion ⟨0, 0, 0, "rc", none, ""⟩ ⟨0, 0, 0, "rc", none, ""⟩ []
          true "rc" true false none = ⟨1, 0, 0, "rc", some 1, ""⟩ := by
  have h1 := (C1_no_release_guard ⟨1, 2, 3, "rc", none, ""⟩
    ⟨1, 2, 3, "rc", none, ""⟩ [] false "rc" true true none rfl).1
    (Or.inl rfl) (Or.inr rfl)
  have h2 := (C1_no_release_guard ⟨0, 0, 0, "rc", none, ""⟩
    ⟨0, 0, 0, "rc", none, ""⟩ [] true "rc" true false none rfl).2
    rfl rfl rfl
  exact ⟨h1, by rw [h2]; rfl⟩

/-! ## Claim C2 — prerelease continuation -/

/-- Claim C2, counterexample: on last version `1.2.0-alpha.2` (last full
release `1.1.1`, so `diff = MINOR`) with *zero* releasable commits the
aggregated level `NO_RELEASE` satisfies `level ≤ diff`, yet with
`prerelease=True` the result is `1.2.0-alpha.2` *unchanged* (the no-op guard
fires), not the revision increment `1.2.0-alpha.3` the claim requires (the
cited scenario rows expect `1.2.0-alpha.2` for chore/no commits). -/
theorem C2_counterexample :
    nextVersion ⟨1, 2, 0, "alpha", some 2, ""⟩ ⟨1, 1, 1, "rc", none, ""⟩ []
        true "alpha" true true none = ⟨1, 2, 0, "alpha", some 2, ""⟩
      ∧ nextVersion ⟨1, 2, 0, "alpha", some 2, ""⟩ ⟨1, 1, 1, "rc", none, ""⟩ []
          true "alpha" true true none ≠ ⟨1, 2, 0, "alpha", some 3, ""⟩ := by
  refine ⟨rfl, ?_⟩
  intro h
  rw [show nextVersion ⟨1, 2, 0, "alpha", some 2, ""⟩ ⟨1, 1, 1, "rc", none, ""⟩
      [] true "alpha" true true none = ⟨1, 2, 0, "alpha", some 2, ""⟩ from rfl]
    at h
  have h2 := congrArg Version.prereleaseRevision h
  simp at h2

/-- Claim C2 (amended): when `last_version` is a prerelease, the aggregated
bump level is at least `PATCH` (so neither the no-op nor the
prerelease-opt-in guard fires), and the level *after the zero-version
adjustment* does not exceed `diff = last_version - last_full_version`: a
requested prerelease yields `last_version` with its revision incremented by
1 when the existing token equals the configured token and reset to revision
1 when it differs; without a prerelease request the result is
`last_version` finalized. -/
theorem C2_prerelease_continuation (last lastFull : Version)
    (results : List ParseResult) (pre : Bool) (tok : String)
    (moz azv : Bool) (bm : Option String)
    (hpre : last.isPrerelease = true)
    (hlvl : LevelBump.PATCH.val ≤ (aggLevel results).val)
    (hdiff : (zeroAdjust last moz azv (aggLevel results)).val
      ≤ (last.sub lastFull).val) :
    nextVersion last lastFull results pre tok moz azv bm
      = withBuild bm
          (if pre then
            { last with
                prereleaseToken := tok,
                prereleaseRevision :=
                  some (if last.prereleaseToken = tok
                        then last.prereleaseRevision.getD 0 + 1 else 1) }
           else last.finalizeVersion) := by
  simp only [nextVersion]
  rw [if_neg (by
    rintro ⟨h, -, -⟩
    rw [h] at hlvl
    simp [LevelBump.val] at hlvl)]
  rw [if_neg (by
    rintro ⟨h, -⟩
    rw [h] at hlvl
    simp [LevelBump.val] at hlvl)]
  rw [hpre]
  simp only [if_true]
  rw [if_pos hdiff]
  cases pre
  · rfl
  · simp only [if_true, Version.toPrerelease]
    by_cases ht : last.prereleaseToken = tok
    · simp [ht]
    · simp [ht, Ne.symm ht]

/-- Witness for C2: a `fix` commit (`PATCH`) on `1.2.0-alpha.2` over last
full release `1.1.1` with `prerelease=True` and token `alpha` continues the
prerelease as `1.2.0-alpha.3`. -/
theorem C2_witness :
    nextVersion ⟨1, 2, 0, "alpha", some 2, ""⟩ ⟨1, 1, 1, "rc", none, ""⟩
        [.parsed ⟨.PATCH, "fix", none, ["bug"], [], "fix: bug", [], ""⟩]
        true "alpha" true true none = ⟨1, 2, 0, "alpha", some 3, ""⟩ := by
  have h := C2_prerelease_continuation ⟨1, 2, 0, "alpha", some 2, ""⟩
    ⟨1, 1, 1, "rc", none, ""⟩
    [.parsed ⟨.PATCH, "fix", none, ["bug"], [], "fix: bug", [], ""⟩]
    true "alpha" true true none rfl (by decide) (by decide)
  rw [h]
  rfl

/-! ## Claim C3 — the `major_on_zero` cap -/

/-- Folding `lmax` over levels capped at `MINOR` equals capping the fold. -/
theorem foldl_lmax_map_lmin (l : List LevelBump) (a : LevelBump) :
    ((l.map (fun x => x.lmin .MINOR)).foldl LevelBump.lmax (a.lmin .MINOR))
      = (l.foldl LevelBump.lmax a).lmin .MINOR := by
  induction l generalizing a with
  | nil => rfl
  | cons x xs ih =>
      simp only [List.map_cons, List.foldl_cons]
      rw [show (a.lmin .MINOR).lmax (x.lmin .MINOR) = (a.lmax x).lmin .MINOR
        from by cases a <;> cases x <;> decide]
      exact ih (a.lmax x)

/-- Capping every parsed commit's bump at `MINOR` caps the aggregate. -/
theorem aggLevel_cap (results : List ParseResult) :
    aggLevel (results.map capBump) = (aggLevel results).lmin .MINOR := by
  have hbumps : parsedBumps (results.map capBump)
      = (parsedBumps results).map (fun x => x.lmin .MINOR) := by
    induction results with
    | nil => rfl
    | cons r rs ih =>
        cases r with
        | parsed pc => simp [parsedBumps, capBump] at ih ⊢; exact ih
        | failed e => simp [parsedBumps, capBump] at ih ⊢; exact ih
  unfold aggLevel
  rw [hbumps]
  have := foldl_lmax_map_lmin (parsedBumps results) .NO_RELEASE
  simpa using this

/-- Claim C3: with `last_version.major == 0`, `allow_zero_version = True`
and `major_on_zero = False`, the aggregated level is capped at `MINOR`
before the prerelease-continuation comparison and before the bump is
applied: the whole call behaves exactly as the same call with
`major_on_zero = True` on commits whose bumps were capped at `MINOR` up
front; concretely, a breaking-change (`MAJOR`) commit on `0.1.1` with
`prerelease = False` yields `0.2.0`, not `1.0.0`; and the cap leaves a
`PRERELEASE_REVISION`-level bump untouched. -/
theorem C3_major_on_zero_cap (last lastFull : Version)
    (results : List ParseResult) (pre : Bool) (tok : String)
    (bm : Option String) (hmaj : last.major = 0) :
    nextVersion last lastFull results pre tok false true bm
        = nextVersion last lastFull (results.map capBump) pre tok true true bm
      ∧ nextVersion ⟨0, 1, 1, "rc", none, ""⟩ ⟨0, 1, 1, "rc", none, ""⟩
          [.parsed ⟨.MAJOR, "feat", none, ["breaking api"], ["breaking api"],
            "feat!: breaking api", [], ""⟩] false "rc" false true none
          = ⟨0, 2, 0, "rc", none, ""⟩
      ∧ LevelBump.lmin .PRERELEASE_REVISION .MINOR = .PRERELEASE_REVISION := by
  refine ⟨?_, rfl, rfl⟩
  simp only [nextVersion, zeroAdjust]
  rw [aggLevel_cap, hmaj]
  generalize aggLevel results = A
  cases A <;> rfl

/-- Witness for C3: a `MAJOR` commit on the prerelease `0.1.0-rc.1` with
`major_on_zero = False` behaves exactly like a `MINOR` commit with
`major_on_zero = True`. -/
theorem C3_witness :
    nextVersion ⟨0, 1, 0, "rc", some 1, ""⟩ ⟨0, 0, 4, "rc", none, ""⟩
        [.parsed ⟨.MAJOR, "feat", none, ["x"], ["x"], "feat!: x", [], ""⟩]
        true "rc" false true none
      = nextVersion ⟨0, 1, 0, "rc", some 1, ""⟩ ⟨0, 0, 4, "rc", none, ""⟩
          ([.parsed ⟨.MAJOR, "feat", none, ["x"], ["x"], "feat!: x", [],
            ""⟩].map capBump) true "rc" true true none :=
  (C3_major_on_zero_cap ⟨0, 1, 0, "rc", some 1, ""⟩ ⟨0, 0, 4, "rc", none, ""⟩
    [.parsed ⟨.MAJOR, "feat", none, ["x"], ["x"], "feat!: x", [], ""⟩]
    true "rc" none rfl).1

end SemRelease
